import Mathlib

/-!
# Verification of the ecmotor_api multi-axis servo controller core

Shallow embedding of the cyclic control pipeline of
`motor_api/src/motor_api.c` (CiA-402 state machine, motion-start barrier,
CSP target handling, command interface, ENI failure modes) and of the C++
surface in `src/motor_adapter.cpp`, `src/motor_api.cpp` and
`src/vendor_adapters.cpp` (byte-level process-image accessors, EYOU adapter
state-machine step), together with theorems settling the specification
claims about them.

Machine integers are modelled as `Nat`/`Int` with explicit reductions
(`% 2^16` for u16 reads, two's-complement wrap for int32, `% 2^64` for the
u64 monotonic clock) at the points where the C code performs fixed-width
arithmetic.
-/

namespace MotorApiC

/-- Constant `MA_MAX_DELTA_PER_CYCLE` from motor_api.c line 32. -/
def MA_MAX_DELTA_PER_CYCLE : Int := 400000

/-- Constant `MA_MODE_CSP` (CiA-402 cyclic synchronous position, value 8) from
motor_api.h. -/
def MA_MODE_CSP : Int := 8

/-- Two's-complement wrap of an integer to the int32 range, modelling
storage into an `int32_t` (e.g. `EC_READ_S32` results and the
`csp_target[i] += delta` accumulation). -/
def wrap32 (z : Int) : Int := (z + 2 ^ 31) % 2 ^ 32 - 2 ^ 31

/-- Unsigned 64-bit subtraction `a - b` as performed on `uint64_t`
(`now - h->barrier_start_ns`); both arguments are first reduced mod 2^64. -/
def u64sub (a b : Nat) : Nat := (2 ^ 64 + a % 2 ^ 64 - b % 2 ^ 64) % 2 ^ 64

/-- The mutable per-handle state of `motor_api_handle_t` that the cyclic
pipeline reads and writes (motor_api.c lines 80-119).  Per-axis arrays are
modelled as functions from the axis index; bus/master handles, HTTP state
and debug counters are omitted (they do not affect the control state). -/
structure Handle where
  slave_count : Nat
  cmd_run : Bool
  cmd_dir : Int
  cmd_step : Int
  servo_enabled : Nat → Bool
  csp_warmup : Nat → Int
  csp_target : Nat → Int
  seen_enabled : Nat → Bool
  last_actual_pos : Nat → Int
  time_cnt : Nat → Nat
  barrier_armed : Bool
  barrier_start_ns : Nat
  barrier_delay_ns : Nat
  motion_started : Bool

/-- The per-tick bus inputs: the status word and actual position delivered
by `ecrt_master_receive`/`ecrt_domain_process` for each axis, and the value
of the monotonic clock during this tick.  Within one call of
`motor_api_run_once` the input half of the process image does not change,
so each axis has a single status and actual value per tick. -/
structure TickInput where
  status : Nat → Nat
  actual : Nat → Int
  now : Nat

/-- The writes a tick performs to one axis's output process-image entries,
in program order: control-word writes (`EC_WRITE_U16` at the 0x6040
offset), target-position writes (`EC_WRITE_S32` at 0x607A) and operation
mode writes (`EC_WRITE_S8` at 0x6060). -/
structure AxisOut where
  ctrl : List Nat
  tgt : List Int
  mode : List Int
deriving DecidableEq

/-- Empty output record (axis not touched). -/
def AxisOut.none : AxisOut := ⟨[], [], []⟩

/-- The last control-word value written to the axis during the tick (the
value that stands in the process image when `ecrt_domain_queue` runs). -/
def AxisOut.lastCtrl (o : AxisOut) : Nat := o.ctrl.getLastD 0

/-- Read `EC_READ_U16` of the status word (motor_api.c line 772). -/
def readStatus (inp : TickInput) (i : Nat) : Nat := inp.status i % 2 ^ 16

/-- Read `EC_READ_S32` of the actual position (int32 value). -/
def readActual (inp : TickInput) (i : Nat) : Int := wrap32 (inp.actual i)

/-- The per-axis results computed by one iteration of the axis loop in
`motor_api_run_once` (motor_api.c lines 771-844): new values for every
index-`i` field the iteration may write, plus the process-image writes. -/
structure AxisRes where
  servo : Bool
  warmup : Int
  target : Int
  seen : Bool
  lastAct : Int
  timeCnt : Nat
  out : AxisOut

/-- One iteration of the axis loop of `motor_api_run_once` for axis `i`
(motor_api.c lines 771-844).  The iteration reads only the shared command
and barrier flags plus the index-`i` per-axis fields, and writes only the
index-`i` fields and axis-`i` output entries, so it is a function of the
pre-loop handle. -/
def axisStep (h : Handle) (inp : TickInput) (i : Nat) : AxisRes :=
  let status := readStatus inp i
  let seen := (status &&& 0x6F) == 0x27
  let act := readActual inp i
  if h.servo_enabled i = false then
    -- lines 777-799: switch (status & 0x6F)
    let m := status &&& 0x6F
    let branch :
        Nat × Int × Int × Bool × List Int :=
      if m = 0x00 then (0x06, h.csp_target i, h.csp_warmup i, false, [])
      else if m = 0x40 then (0x06, h.csp_target i, h.csp_warmup i, false, [])
      else if m = 0x21 then (0x07, act, h.csp_warmup i, false, [act])
      else if m = 0x23 then (0x0F, h.csp_target i, h.csp_warmup i, false, [])
      else if m = 0x27 then (0x0F, act, 10, true, [])
      else (0x06, h.csp_target i, h.csp_warmup i, false, [])
    let control := branch.1
    let target := branch.2.1
    let warmup := branch.2.2.1
    let servo := branch.2.2.2.1
    let tgtWrites := branch.2.2.2.2
    -- line 801: fault-reset pulse when (status & 0x0040) && !(status & 0x0001)
    let pulse := status &&& 0x0040 != 0 && status &&& 0x0001 == 0
    { servo := servo, warmup := warmup, target := target, seen := seen,
      lastAct := h.last_actual_pos i, timeCnt := h.time_cnt i,
      out := { ctrl := (if pulse then [0x0000, 0x0080] else []) ++ [control],
               tgt := tgtWrites, mode := [MA_MODE_CSP] } }
  else
    -- lines 810-843: servo enabled
    let tc := (h.time_cnt i + 1) % 2 ^ 32
    if h.motion_started = false then
      -- lines 813-824: hold at actual while the barrier has not fired
      { servo := h.servo_enabled i, warmup := h.csp_warmup i, target := act,
        seen := seen, lastAct := act, timeCnt := tc,
        out := { ctrl := [0x0F], tgt := [act], mode := [MA_MODE_CSP] } }
    else
      -- lines 826-842: advance target by the clamped command delta
      let delta0 : Int := if h.cmd_run then h.cmd_dir * h.cmd_step else 0
      let delta1 := if delta0 > MA_MAX_DELTA_PER_CYCLE then MA_MAX_DELTA_PER_CYCLE else delta0
      let delta := if delta1 < -MA_MAX_DELTA_PER_CYCLE then -MA_MAX_DELTA_PER_CYCLE else delta1
      let tw : Int × Int :=
        if h.csp_warmup i > 0 then (act, h.csp_warmup i - 1)
        else (wrap32 (h.csp_target i + delta), h.csp_warmup i)
      { servo := h.servo_enabled i, warmup := tw.2, target := tw.1,
        seen := seen, lastAct := act, timeCnt := tc,
        out := { ctrl := [0x0F], tgt := [tw.1], mode := [MA_MODE_CSP] } }

/-- The axis loop of `motor_api_run_once` (lines 771-845).  Each iteration
reads and writes only its own axis's fields, so the loop is embedded
pointwise: every axis `i < slave_count` takes the value `axisStep` computes
from the pre-loop handle, all other indices are unchanged. -/
def axisLoop (h : Handle) (inp : TickInput) : Handle × (Nat → AxisOut) :=
  ({ h with
     servo_enabled := fun i => if i < h.slave_count then (axisStep h inp i).servo else h.servo_enabled i,
     csp_warmup := fun i => if i < h.slave_count then (axisStep h inp i).warmup else h.csp_warmup i,
     csp_target := fun i => if i < h.slave_count then (axisStep h inp i).target else h.csp_target i,
     seen_enabled := fun i => if i < h.slave_count then (axisStep h inp i).seen else h.seen_enabled i,
     last_actual_pos := fun i => if i < h.slave_count then (axisStep h inp i).lastAct else h.last_actual_pos i,
     time_cnt := fun i => if i < h.slave_count then (axisStep h inp i).timeCnt else h.time_cnt i },
   fun i => if i < h.slave_count then (axisStep h inp i).out else AxisOut.none)

/-- Append the barrier-fire writes (target seed, control 0x0F, mode 8,
motor_api.c lines 858-863) to an axis's output record. -/
def fireOut (inp : TickInput) (o : AxisOut) (i : Nat) : AxisOut :=
  { ctrl := o.ctrl ++ [0x0F], tgt := o.tgt ++ [readActual inp i],
    mode := o.mode ++ [MA_MODE_CSP] }

/-- The barrier block of `motor_api_run_once` (motor_api.c lines 846-869),
run after the axis loop on the post-loop handle `h`. -/
def barrierStep (h : Handle) (inp : TickInput) (outs : Nat → AxisOut) :
    Handle × (Nat → AxisOut) :=
  let run := h.cmd_run
  let all := (List.range h.slave_count).all fun i => h.seen_enabled i
  if h.motion_started = false ∧ run = true then
    let h1 := if h.barrier_armed = false ∧ all = true then
        { h with barrier_armed := true, barrier_start_ns := inp.now % 2 ^ 64 }
      else h
    if h1.barrier_armed = true then
      if h1.barrier_delay_ns ≤ u64sub inp.now h1.barrier_start_ns then
        ({ h1 with
           csp_target := fun i => if i < h1.slave_count then readActual inp i else h1.csp_target i,
           motion_started := true, barrier_armed := false },
         fun i => if i < h1.slave_count then fireOut inp (outs i) i else outs i)
      else (h1, outs)
    else (h1, outs)
  else (h, outs)

/-- One call of `motor_api_run_once` (motor_api.c lines 762-874): the axis
loop followed by the barrier block.  Returns the new handle state and the
output process-image writes for each axis. -/
def motor_api_run_once (h : Handle) (inp : TickInput) : Handle × (Nat → AxisOut) :=
  let s := axisLoop h inp
  barrierStep s.1 inp s.2

/-- Function `set_cmd_locked` (motor_api.c lines 173-181): clamp the step to
[1, 100000], force the direction into {-1, 0, 1}, and store the command. -/
def set_cmd_locked (h : Handle) (run : Bool) (dir step : Int) : Handle :=
  let step1 := if step < 1 then 1 else step
  let step2 := if step1 > 100000 then 100000 else step1
  let dir1 := if dir ≠ -1 ∧ dir ≠ 0 ∧ dir ≠ 1 then 0 else dir
  { h with cmd_run := run, cmd_dir := dir1, cmd_step := step2 }

/-- The handle state right after `motor_api_create` completes: `calloc`
zero-initialisation plus the barrier fields set at motor_api.c line 663. -/
def initHandle (n : Nat) : Handle :=
  { slave_count := n, cmd_run := false, cmd_dir := 0, cmd_step := 0,
    servo_enabled := fun _ => false, csp_warmup := fun _ => 0,
    csp_target := fun _ => 0, seen_enabled := fun _ => false,
    last_actual_pos := fun _ => 0, time_cnt := fun _ => 0,
    barrier_armed := false, barrier_start_ns := 0,
    barrier_delay_ns := 1000000000, motion_started := false }

/-- Run a sequence of ticks, returning the final handle. -/
def runTicks (h : Handle) : List TickInput → Handle
  | [] => h
  | inp :: rest => runTicks (motor_api_run_once h inp).1 rest

/-- The sequence of last-written control words for axis `i`, one per tick. -/
def emittedTrace (h : Handle) (i : Nat) : List TickInput → List Nat
  | [] => []
  | inp :: rest =>
      ((motor_api_run_once h inp).2 i).lastCtrl ::
        emittedTrace (motor_api_run_once h inp).1 i rest

/-- Stubbed bus of spec scenario 1: one axis whose status word runs through
0x40, 0x40, 0x21, 0x23, 0x27 while the actual position reads 500. -/
def c1inputs : List TickInput :=
  [0x40, 0x40, 0x21, 0x23, 0x27].map fun v =>
    { status := fun _ => v, actual := fun _ => 500, now := 0 }

/-- Handle for the delta-clamp scenario: one axis, servo enabled, motion
started, warmup exhausted, with the command set through the command
interface as run=true, dir=+1, step=1000000. -/
def c3handle : Handle :=
  { set_cmd_locked (initHandle 1) true 1 1000000 with
    servo_enabled := fun _ => true, motion_started := true }

/-- Tick input for the delta-clamp scenario (drive reports operation
enabled, actual position 0). -/
def c3input : TickInput :=
  { status := fun _ => 0x0627, actual := fun _ => 0, now := 0 }

/-- Tick input whose status word is 0x0008: CiA-402 fault bit (bit 3) set,
ready-to-switch-on (bit 0) clear. -/
def c4faultInput : TickInput :=
  { status := fun _ => 0x0008, actual := fun _ => 0, now := 0 }

/-- Tick input whose status word is 0x0040 (switch-on disabled). -/
def c4disabledInput : TickInput :=
  { status := fun _ => 0x0040, actual := fun _ => 0, now := 0 }

/-- Single-axis handle whose axis is already servo-enabled (barrier not yet
fired). -/
def enabledHandle : Handle :=
  { initHandle 1 with servo_enabled := fun _ => true }

/-- Single-axis handle with the servo enabled and the barrier armed at
monotonic time 0, while the stored command has run = false. -/
def armedStoppedHandle : Handle :=
  { initHandle 1 with servo_enabled := fun _ => true, barrier_armed := true }

/-- Single-axis handle with the servo enabled, the barrier armed at
monotonic time 0, and a running command. -/
def armedRunningHandle : Handle :=
  { initHandle 1 with
    servo_enabled := fun _ => true, barrier_armed := true, cmd_run := true }

/-- Single-axis handle ready to arm: servo enabled, run = true, barrier
not armed. -/
def readyToArmHandle : Handle :=
  { initHandle 1 with servo_enabled := fun _ => true, cmd_run := true }

/-- Tick input with status 0x27 (operation enabled) at monotonic time t. -/
def enabledInputAt (t : Nat) : TickInput :=
  { status := fun _ => 0x27, actual := fun _ => 42, now := t }

end MotorApiC

namespace EniModel

/-- Return status codes `ma_status_t` from motor_api.h lines 43-50. -/
inductive MaStatus
  | ok
  | err_init
  | err_config
  | err_param
  | err_runtime
  | err_io
deriving DecidableEq

/-- Constant `MA_MAX_SLAVES` (motor_api.c line 31). -/
def MA_MAX_SLAVES : Nat := 16

/-- True for the characters `strtol` skips before the number (C `isspace`). -/
def isSpaceChar (c : Char) : Bool :=
  c = ' ' || c = '\t' || c = '\n' || c = '\x0b' || c = '\x0c' || c = '\r'

/-- Value of `c` as a digit in the given base, if it is one (the digit set
`strtol` accepts: 0-9 then letters case-insensitively). -/
def digitVal (base : Nat) (c : Char) : Option Nat :=
  let v : Option Nat :=
    if '0' ≤ c ∧ c ≤ '9' then some (c.toNat - '0'.toNat)
    else if 'a' ≤ c ∧ c ≤ 'z' then some (c.toNat - 'a'.toNat + 10)
    else if 'A' ≤ c ∧ c ≤ 'Z' then some (c.toNat - 'A'.toNat + 10)
    else none
  match v with
  | some d => if d < base then some d else none
  | none => none

/-- Greedy digit accumulation of `strtol`: consume digits of `base` until
the first non-digit, accumulating the magnitude.  A string with no leading
digit yields the accumulator (0 at the top call), which is how `strtol`
reports a malformed integer. -/
def digitsVal (base : Nat) : List Char → Nat → Nat
  | [], acc => acc
  | c :: cs, acc =>
      match digitVal base c with
      | some d => digitsVal base cs (acc * base + d)
      | none => acc

/-- C `strtol(p, NULL, base)` for base 16 and base 0 as used by
`parse_hex_or_dec`: skip whitespace, optional sign, optional 0x prefix
(base 16 or 0), octal for a remaining leading 0 in base 0.  Out-of-range
clamping to LONG_MAX is not modelled (the parsed fields fit easily). -/
def strtol (cs : List Char) (base : Nat) : Int :=
  let cs1 := cs.dropWhile isSpaceChar
  let signed : Bool × List Char :=
    match cs1 with
    | '-' :: rest => (true, rest)
    | '+' :: rest => (false, rest)
    | _ => (false, cs1)
  let body : Nat × List Char :=
    if base = 16 then
      match signed.2 with
      | '0' :: x :: rest => if x = 'x' ∨ x = 'X' then (16, rest) else (16, signed.2)
      | _ => (16, signed.2)
    else if base = 0 then
      match signed.2 with
      | '0' :: x :: rest => if x = 'x' ∨ x = 'X' then (16, rest) else (8, signed.2)
      | '0' :: rest => (8, '0' :: rest)
      | _ => (10, signed.2)
    else (base, signed.2)
  let mag : Int := digitsVal body.1 body.2 0
  if signed.1 then -mag else mag

/-- Function `parse_hex_or_dec` (motor_api.c lines 150-157): skip spaces and quotes,
then accept `#x...`/`#...` (hex), `0x...` (hex), `x...` (hex) or plain
`strtol` with base 0. -/
def parse_hex_or_dec (s : List Char) : Int :=
  let p := s.dropWhile fun c => c = ' ' || c = '"'
  match p with
  | '#' :: rest =>
      match rest with
      | c :: r2 => if c = 'x' ∨ c = 'X' then strtol r2 16 else strtol rest 16
      | [] => strtol [] 16
  | '0' :: c :: rest =>
      if c = 'x' ∨ c = 'X' then strtol rest 16 else strtol ('0' :: c :: rest) 0
  | c :: rest =>
      if c = 'x' ∨ c = 'X' then strtol rest 16 else strtol (c :: rest) 0
  | [] => strtol [] 0

/-- The raw attribute text of one `<Slave>` element as located by the text
scan of `motor_api_read_eni` (motor_api.c lines 346-354).  The byte-level
search for the enclosing tags is abstracted into this pre-split record:
`none` means the attribute key was not found in the tag
(`parse_attr_int_range` returns -1), `some s` means the key was found with
raw value text `s`. -/
structure RawSlave where
  positionAttr : Option (List Char)
  vendorAttr : Option (List Char)
  productAttr : Option (List Char)

/-- Function `parse_attr_int_range` (motor_api.c lines 159-167) on a located
attribute: -1 when the key is absent, otherwise `parse_hex_or_dec` of the
extracted value text. -/
def parse_attr (a : Option (List Char)) : Int :=
  match a with
  | none => -1
  | some s => parse_hex_or_dec s

/-- Identity fields of `ma_eni_slave_t` filled per slave. -/
structure EniSlave where
  vendor_id : Nat
  product_code : Nat
  position : Nat
deriving DecidableEq

/-- Per-slave field extraction of `motor_api_read_eni` (motor_api.c lines
350-354 and 412-415): position defaults to the discovery index, vendor id /
product code fall back to the documented defaults when the attribute is
absent or its integer text parses to 0. -/
def parseSlave (idx : Nat) (r : RawSlave) : EniSlave :=
  let pv := parse_attr r.positionAttr
  let ps : Nat := if 0 ≤ pv then pv.toNat % 2 ^ 16 else idx
  let vv := parse_attr r.vendorAttr
  let v : Nat := if 0 ≤ vv then vv.toNat % 2 ^ 32 else 0
  let pp := parse_attr r.productAttr
  let pc : Nat := if 0 ≤ pp then pp.toNat % 2 ^ 32 else 0
  { vendor_id := if v ≠ 0 then v else 0x000116c7,
    product_code := if pc ≠ 0 then pc else 0x003e0402,
    position := ps }

/-- Function `motor_api_read_eni` (motor_api.c lines 323-511) on an abstract file
system: `none` models a path `fopen` cannot open (line 331,
return MA_ERR_IO); otherwise the slave elements located by the text scan
are parsed one by one, capped at `MA_MAX_SLAVES`, and the call returns
MA_OK with the parsed count.  No content ever makes the parse itself
fail: malformed integer fields only fall back to defaults in
`parseSlave`. -/
def motor_api_read_eni (file : Option (List RawSlave)) :
    MaStatus × Nat × List EniSlave :=
  match file with
  | none => (.err_io, 0, [])
  | some raws =>
      let sl := (raws.take MA_MAX_SLAVES).enum.map fun p => parseSlave p.1 p.2
      (.ok, sl.length, sl)

/-- The ENI acceptance check of `motor_api_create` (motor_api.c lines
541-547): a non-OK parse result or a zero slave count is surfaced as
MA_ERR_CONFIG. -/
def motor_api_create_eni_check (file : Option (List RawSlave)) : MaStatus :=
  let r := motor_api_read_eni file
  if r.1 ≠ MaStatus.ok ∨ r.2.1 = 0 then .err_config else .ok

/-- A slave element at position 2 whose vendor-id attribute text is the
malformed integer "0xZZ" and whose product code is absent. -/
def c8rawSlave : RawSlave :=
  { positionAttr := some "2".toList, vendorAttr := some "0xZZ".toList,
    productAttr := none }

end EniModel

namespace CppAdapter

/-- Host byte order, a parameter of the semantics of the raw typed
loads/stores in motor_api.cpp. -/
inductive Endian
  | little
  | big
deriving DecidableEq

/-- Helper `StandardMotorAdapter::writeInt16` (motor_adapter.cpp lines 250-253):
`data[0] = value & 0xFF; data[1] = (value >> 8) & 0xFF` — the byte
sequence written, LSB first.  `value` is an `int16_t`; its two's-complement
16-bit pattern is `(value % 2^16)`. -/
def writeInt16 (value : Int) : List Nat :=
  let u := (value % 2 ^ 16).toNat
  [u % 2 ^ 8, u / 2 ^ 8]

/-- Helper `StandardMotorAdapter::writeInt32` (motor_adapter.cpp lines 243-248):
four bytes LSB first from the 32-bit two's-complement pattern. -/
def writeInt32 (value : Int) : List Nat :=
  let u := (value % 2 ^ 32).toNat
  [u % 2 ^ 8, u / 2 ^ 8 % 2 ^ 8, u / 2 ^ 16 % 2 ^ 8, u / 2 ^ 24]

/-- Sign interpretation of a 16-bit pattern as `int16_t`
(the `static_cast<int16_t>` in readInt16). -/
def toInt16 (u : Nat) : Int :=
  if u % 2 ^ 16 < 2 ^ 15 then (u % 2 ^ 16 : Int) else (u % 2 ^ 16 : Int) - 2 ^ 16

/-- Sign interpretation of a 32-bit pattern as `int32_t`. -/
def toInt32 (u : Nat) : Int :=
  if u % 2 ^ 32 < 2 ^ 31 then (u % 2 ^ 32 : Int) else (u % 2 ^ 32 : Int) - 2 ^ 32

/-- Helper `StandardMotorAdapter::readInt16` (motor_adapter.cpp lines 237-241):
assemble `data[0] | data[1] << 8` and cast to `int16_t`. -/
def readInt16 (bs : List Nat) : Int :=
  toInt16 (bs.getD 0 0 ||| (bs.getD 1 0 <<< 8))

/-- Helper `StandardMotorAdapter::readInt32` (motor_adapter.cpp lines 229-235):
assemble four bytes LSB first and cast to `int32_t`. -/
def readInt32 (bs : List Nat) : Int :=
  toInt32 (bs.getD 0 0 ||| (bs.getD 1 0 <<< 8) ||| (bs.getD 2 0 <<< 16) |||
    (bs.getD 3 0 <<< 24))

/-- Helper `read_le_int32` (motor_api.cpp lines 338-345), used by
`MotorApi::get_actual_pos`; byte-for-byte the same assembly as
`StandardMotorAdapter::readInt32`. -/
def read_le_int32 (bs : List Nat) : Int :=
  toInt32 (bs.getD 0 0 ||| (bs.getD 1 0 <<< 8) ||| (bs.getD 2 0 <<< 16) |||
    (bs.getD 3 0 <<< 24))

/-- Byte sequence deposited in memory by a host-typed 16-bit store
`*(uint16_t *)p = v`, as a function of the host byte order. -/
def hostStore16 (e : Endian) (v : Nat) : List Nat :=
  let u := v % 2 ^ 16
  match e with
  | .little => [u % 2 ^ 8, u / 2 ^ 8]
  | .big => [u / 2 ^ 8, u % 2 ^ 8]

/-- Byte sequence deposited by a host-typed 32-bit store
`*(int32_t *)p = v`. -/
def hostStore32 (e : Endian) (v : Int) : List Nat :=
  let u := (v % 2 ^ 32).toNat
  match e with
  | .little => [u % 2 ^ 8, u / 2 ^ 8 % 2 ^ 8, u / 2 ^ 16 % 2 ^ 8, u / 2 ^ 24]
  | .big => [u / 2 ^ 24, u / 2 ^ 16 % 2 ^ 8, u / 2 ^ 8 % 2 ^ 8, u % 2 ^ 8]

/-- Value produced by a host-typed 16-bit load `*(uint16_t *)p` from two
memory bytes, as a function of the host byte order. -/
def hostLoad16 (e : Endian) (b0 b1 : Nat) : Nat :=
  match e with
  | .little => b0 + 2 ^ 8 * b1
  | .big => b1 + 2 ^ 8 * b0

/-- Method `MotorApi::write_control` (motor_api.cpp line 1084) stores the control
word with `*(uint16_t *)(domain_pd_ + off) = control`: the bytes reaching
the process image depend on the host byte order. -/
def write_control_bytes (e : Endian) (control : Nat) : List Nat :=
  hostStore16 e control

/-- Method `MotorApi::update_target_pos` (motor_api.cpp line 1106) stores the
target position with `*(int32_t *)(domain_pd_ + off) = pos`. -/
def update_target_pos_bytes (e : Endian) (pos : Int) : List Nat :=
  hostStore32 e pos

/-- Method `MotorApi::get_status` (motor_api.cpp line 1031) reads the status word
with `*(uint16_t *)(domain_pd_ + offset)` from the two wire bytes. -/
def get_status_value (e : Endian) (b0 b1 : Nat) : Nat :=
  hostLoad16 e b0 b1

end CppAdapter

namespace EyouAdapter

/-- Method `StandardMotorAdapter::makeControl` (motor_adapter.cpp lines 173-226):
pure conditional chain from the status bits to (control word, run_enable).
The unused `start_pos` reference parameter is omitted. -/
def standardMakeControl (status : Nat) : Nat × Bool :=
  let ready := status &&& 0x0001 ≠ 0
  let switched := status &&& 0x0002 ≠ 0
  let opEnabled := status &&& 0x0004 ≠ 0
  let fault := status &&& 0x0008 ≠ 0
  let quickStop := status &&& 0x0020 ≠ 0
  let soDisabled := status &&& 0x0040 ≠ 0
  let warning := status &&& 0x0080 ≠ 0
  if fault then (0x0080, false)
  else if warning then (0x0006, true)
  else if soDisabled then (0x06, true)
  else if quickStop then (0x02, true)
  else if ¬ready ∧ ¬switched then (0x06, true)
  else if ready ∧ ¬switched then (0x07, true)
  else if ready ∧ switched ∧ ¬opEnabled then (0x0F, true)
  else if opEnabled then (0x0F, true)
  else (0x06, true)

/-- The function-static state of `EyouMotorAdapter::makeControl`
(vendor_adapters.cpp lines 27-29 and 63): the state-change damping counter
with the last status it compared against, and the fault-reset attempt
counter declared inside the fault branch. -/
structure EyouState where
  fault_reset_count : Int
  state_change_delay : Int
  last_status : Nat
deriving DecidableEq

/-- Method `EyouMotorAdapter::makeControl` (vendor_adapters.cpp lines 25-152) as a
state-passing function: given the persistent state, the status word and
the current value of the `run_enable` reference, return the control word,
the new `run_enable`, and the new persistent state. -/
def eyouMakeControl (st : EyouState) (status : Nat) (run_enable : Bool) :
    Nat × Bool × EyouState :=
  -- lines 31-37: state-change damping bookkeeping
  let st1 :=
    if status ≠ st.last_status then
      { st with state_change_delay := 0, last_status := status }
    else
      { st with state_change_delay := st.state_change_delay + 1 }
  -- lines 40-43: hold (0x0000) for the first 5 cycles after a change
  if st1.state_change_delay < 5 then (0x0000, run_enable, st1)
  else
    let ready := status &&& 0x0001 ≠ 0
    let switched := status &&& 0x0002 ≠ 0
    let opEnabled := status &&& 0x0004 ≠ 0
    let fault := status &&& 0x0008 ≠ 0
    let quickStop := status &&& 0x0020 ≠ 0
    let warning := status &&& 0x0080 ≠ 0
    if fault then
      -- lines 60-88: vendor fault handling with the repeat-reset policy
      let fault_code := (status >>> 8) &&& 0xFF
      if fault_code = 0x08 ∨ fault_code = 0x09 then
        (0x0080, false, { st1 with fault_reset_count := 0 })
      else
        let st2 := { st1 with fault_reset_count := st1.fault_reset_count + 1 }
        if st2.fault_reset_count < 10 then (0x0080, false, st2)
        else (0x0006, true, { st2 with fault_reset_count := 0 })
    else if warning then
      -- lines 91-105
      if ready ∧ switched ∧ ¬opEnabled then (0x000F, true, st1)
      else if ready ∧ ¬switched then (0x0007, true, st1)
      else (0x0006, true, st1)
    else if quickStop ∧ ¬fault ∧ ¬warning then
      -- lines 108-125
      if ready ∧ ¬switched then (0x0007, true, st1)
      else if ready ∧ switched then (0x0002, true, st1)
      else (0x0002, false, st1)
    else if ready ∧ ¬switched ∧ ¬opEnabled ∧ ¬fault ∧ ¬warning ∧ quickStop then
      -- lines 128-132
      (0x0007, true, st1)
    else if ¬ready ∧ ¬switched ∧ ¬opEnabled ∧ ¬fault ∧ ¬warning ∧ ¬quickStop then
      -- lines 135-139
      (0x0006, true, st1)
    else if ready ∧ switched ∧ ¬opEnabled ∧ ¬quickStop then
      -- lines 142-146
      (0x000F, true, st1)
    else
      -- lines 149-151: fall through to the standard adapter
      let r := standardMakeControl status
      (r.1, r.2, st1)

/-- Repeated calls to `eyouMakeControl` with a constant status, collecting
the (control word, run_enable) results in call order. -/
def eyouCalls (st : EyouState) (status : Nat) (re : Bool) :
    Nat → List (Nat × Bool) × EyouState
  | 0 => ([], st)
  | n + 1 =>
      let r := eyouMakeControl st status re
      let rest := eyouCalls r.2.2 status r.2.1 n
      ((r.1, r.2.1) :: rest.1, rest.2)

/-- State used for the repeat-reset scenario: the drive has been reporting
the same faulted status long enough that the damping delay is past, and no
reset attempts have been counted yet.  Status 0x0308: fault bit set, fault
code 0x03 (not a following-error code). -/
def c9state : EyouState :=
  { fault_reset_count := 0, state_change_delay := 4, last_status := 0x0308 }

end EyouAdapter

/-! ## Theorems -/

namespace MotorApiC

theorem axisStep_seen (h : Handle) (inp : TickInput) (i : Nat) :
    (axisStep h inp i).seen = ((readStatus inp i &&& 0x6F) == 0x27) := by
  unfold axisStep
  split_ifs <;> rfl

theorem barrierStep_servo (h : Handle) (inp : TickInput) (outs : Nat → AxisOut) :
    (barrierStep h inp outs).1.servo_enabled = h.servo_enabled := by
  simp only [barrierStep]
  split_ifs <;> rfl

theorem barrierStep_warmup (h : Handle) (inp : TickInput) (outs : Nat → AxisOut) :
    (barrierStep h inp outs).1.csp_warmup = h.csp_warmup := by
  simp only [barrierStep]
  split_ifs <;> rfl

theorem barrierStep_nofire (h : Handle) (inp : TickInput) (outs : Nat → AxisOut)
    (harm : h.barrier_armed = false)
    (hall : (List.range h.slave_count).all (fun j => h.seen_enabled j) = false) :
    barrierStep h inp outs = (h, outs) := by
  simp only [barrierStep, harm, hall]
  split_ifs with h1 h2 h3 <;> simp_all

theorem lastCtrl_fireOut (inp : TickInput) (o : AxisOut) (i : Nat) :
    (fireOut inp o i).lastCtrl = 0x0F := by
  simp [fireOut, AxisOut.lastCtrl, List.getLastD_concat]

theorem barrierStep_target_or (h : Handle) (inp : TickInput) (outs : Nat → AxisOut) (i : Nat) :
    (barrierStep h inp outs).1.csp_target i = h.csp_target i ∨
    (barrierStep h inp outs).1.csp_target i = readActual inp i := by
  simp only [barrierStep]
  split_ifs <;> try (left; rfl)
  all_goals by_cases hin : i < h.slave_count
  all_goals simp [hin]

theorem barrierStep_out_or (h : Handle) (inp : TickInput) (outs : Nat → AxisOut) (i : Nat) :
    (barrierStep h inp outs).2 i = outs i ∨
    (barrierStep h inp outs).2 i = fireOut inp (outs i) i := by
  simp only [barrierStep]
  split_ifs <;> try (left; rfl)
  all_goals by_cases hin : i < h.slave_count
  all_goals simp [hin]

theorem axisStep_disabled (h : Handle) (inp : TickInput) (i : Nat)
    (hs : h.servo_enabled i = false) :
    axisStep h inp i =
      { servo := (readStatus inp i &&& 0x6F == 0x27),
        warmup := if readStatus inp i &&& 0x6F = 0x27 then 10 else h.csp_warmup i,
        target := if readStatus inp i &&& 0x6F = 0x21 ∨ readStatus inp i &&& 0x6F = 0x27
                  then readActual inp i else h.csp_target i,
        seen := (readStatus inp i &&& 0x6F == 0x27),
        lastAct := h.last_actual_pos i,
        timeCnt := h.time_cnt i,
        out := { ctrl := (if readStatus inp i &&& 0x0040 != 0 && readStatus inp i &&& 0x0001 == 0
                          then [0x0000, 0x0080] else []) ++
                   [if readStatus inp i &&& 0x6F = 0x21 then 0x07
                    else if readStatus inp i &&& 0x6F = 0x23 ∨ readStatus inp i &&& 0x6F = 0x27
                    then 0x0F else 0x06],
                 tgt := if readStatus inp i &&& 0x6F = 0x21 then [readActual inp i] else [],
                 mode := [MA_MODE_CSP] } } := by
  simp only [axisStep, hs]
  split_ifs <;> simp_all

/-- C1: while an axis is not yet servo-enabled, one call of
motor_api_run_once emits the control word determined by the masked status
s = status & 0x6F (0x21 emits 0x0007 and seeds the CSP target to the
actual read that tick; 0x23 and 0x27 emit 0x000F; 0x27 additionally sets
servo_enabled, sets csp_warmup to 10 and seeds the target; every other s
emits 0x0006); and the stubbed status sequence
[0x40, 0x40, 0x21, 0x23, 0x27] yields emitted control words
[0x06, 0x06, 0x07, 0x0F, 0x0F] with servo_enabled[0] true, csp_warmup[0]
equal to 10 and the target seeded to the actual after the fifth tick. -/
theorem C1_cold_start_state_machine :
    (∀ (h : Handle) (inp : TickInput) (i : Nat),
      i < h.slave_count →
      h.servo_enabled i = false →
      (h.barrier_armed = true → ∀ j, j < h.slave_count → h.servo_enabled j = true) →
      ((motor_api_run_once h inp).2 i).lastCtrl =
          (if readStatus inp i &&& 0x6F = 0x21 then 0x07
           else if readStatus inp i &&& 0x6F = 0x23 ∨ readStatus inp i &&& 0x6F = 0x27 then 0x0F
           else 0x06) ∧
      (readStatus inp i &&& 0x6F = 0x21 →
          (motor_api_run_once h inp).1.csp_target i = readActual inp i) ∧
      (readStatus inp i &&& 0x6F = 0x27 →
          (motor_api_run_once h inp).1.servo_enabled i = true ∧
          (motor_api_run_once h inp).1.csp_warmup i = 10 ∧
          (motor_api_run_once h inp).1.csp_target i = readActual inp i)) ∧
    emittedTrace (initHandle 1) 0 c1inputs = [0x06, 0x06, 0x07, 0x0F, 0x0F] ∧
    (runTicks (initHandle 1) c1inputs).servo_enabled 0 = true ∧
    (runTicks (initHandle 1) c1inputs).csp_warmup 0 = 10 ∧
    (runTicks (initHandle 1) c1inputs).csp_target 0 = 500 := by
  refine ⟨?_, by decide, by decide, by decide, by decide⟩
  intro h inp i hi hs hinv
  have harm : h.barrier_armed = false := by
    cases hb : h.barrier_armed
    · rfl
    · have := hinv hb i hi
      rw [hs] at this
      exact absurd this (by simp)
  have hseen : ∀ j, j < h.slave_count →
      (axisLoop h inp).1.seen_enabled j = ((readStatus inp j &&& 0x6F) == 0x27) := by
    intro j hj
    simp [axisLoop, hj, axisStep_seen]
  have hstep := axisStep_disabled h inp i hs
  by_cases h27 : readStatus inp i &&& 0x6F = 0x27
  · -- the 0x27 transition: the barrier may also fire this very tick
    have hrun : motor_api_run_once h inp =
        barrierStep (axisLoop h inp).1 inp (axisLoop h inp).2 := rfl
    have hservo : (motor_api_run_once h inp).1.servo_enabled i = true := by
      rw [hrun, barrierStep_servo]
      simp [axisLoop, hi, hstep, h27]
    have hwarm : (motor_api_run_once h inp).1.csp_warmup i = 10 := by
      rw [hrun, barrierStep_warmup]
      simp [axisLoop, hi, hstep, h27]
    have htgtloop : (axisLoop h inp).1.csp_target i = readActual inp i := by
      simp [axisLoop, hi, hstep, h27]
    have htgt : (motor_api_run_once h inp).1.csp_target i = readActual inp i := by
      rw [hrun]
      rcases barrierStep_target_or (axisLoop h inp).1 inp (axisLoop h inp).2 i with hc | hc <;>
        rw [hc]
      exact htgtloop
    have hctrl : ((motor_api_run_once h inp).2 i).lastCtrl = 0x0F := by
      rw [hrun]
      have houtloop : (axisLoop h inp).2 i = (axisStep h inp i).out := by
        simp [axisLoop, hi]
      rcases barrierStep_out_or (axisLoop h inp).1 inp (axisLoop h inp).2 i with hc | hc <;>
        rw [hc]
      · rw [houtloop, hstep]
        simp [AxisOut.lastCtrl, List.getLastD_concat, h27]
      · exact lastCtrl_fireOut inp _ i
    refine ⟨?_, ?_, fun _ => ⟨hservo, hwarm, htgt⟩⟩
    · rw [hctrl, h27]
      norm_num
    · intro h21
      rw [h27] at h21
      norm_num at h21
  · -- not yet 0x27: axis i is not seen enabled, so the barrier cannot fire
    have hall : (List.range (axisLoop h inp).1.slave_count).all
        (fun j => (axisLoop h inp).1.seen_enabled j) = false := by
      have hsi : (axisLoop h inp).1.seen_enabled i = false := by
        rw [hseen i hi]
        simp [h27]
      by_contra hcon
      rw [Bool.not_eq_false] at hcon
      have := List.all_eq_true.mp hcon i (List.mem_range.mpr hi)
      rw [hsi] at this
      exact absurd this (by simp)
    have hnf := barrierStep_nofire (axisLoop h inp).1 inp (axisLoop h inp).2 harm hall
    have hrun : motor_api_run_once h inp = ((axisLoop h inp).1, (axisLoop h inp).2) := by
      rw [motor_api_run_once, hnf]
    have houtloop : (axisLoop h inp).2 i = (axisStep h inp i).out := by
      simp [axisLoop, hi]
    refine ⟨?_, ?_, fun hc => absurd hc h27⟩
    · rw [hrun]
      simp only [houtloop, hstep]
      simp [AxisOut.lastCtrl, List.getLastD_concat]
    · intro h21
      rw [hrun]
      simp [axisLoop, hi, hstep, h21]

/-- Witness for C1: instantiated on a fresh single-axis handle with status
0x21, the hypotheses hold and the tick emits 0x0007. -/
theorem C1_cold_start_state_machine_witness :
    (0 < (initHandle 1).slave_count ∧ (initHandle 1).servo_enabled 0 = false) ∧
    ((motor_api_run_once (initHandle 1)
        { status := fun _ => 0x21, actual := fun _ => 777, now := 0 }).2 0).lastCtrl = 0x07 := by
  refine ⟨⟨by decide, by decide⟩, ?_⟩
  have := (C1_cold_start_state_machine.1 (initHandle 1)
    { status := fun _ => 0x21, actual := fun _ => 777, now := 0 } 0
    (by decide) (by decide) (fun hb => absurd hb (by decide))).1
  rw [this]
  decide

end MotorApiC

namespace MotorApiC

theorem u64sub_now_self (a : Nat) : u64sub a (a % 2 ^ 64) = 0 := by
  simp [u64sub]

theorem barrierStep_motion_id (h : Handle) (inp : TickInput) (outs : Nat → AxisOut)
    (hm : h.motion_started = true) :
    barrierStep h inp outs = (h, outs) := by
  simp [barrierStep, hm]

theorem barrierStep_norun_id (h : Handle) (inp : TickInput) (outs : Nat → AxisOut)
    (hr : h.cmd_run = false) :
    barrierStep h inp outs = (h, outs) := by
  simp [barrierStep, hr]

theorem barrierStep_outs_id (h : Handle) (inp : TickInput) (outs : Nat → AxisOut)
    (hd : 0 < h.barrier_delay_ns) (ha : h.barrier_armed = false) :
    (barrierStep h inp outs).2 = outs := by
  simp only [barrierStep, ha]
  split_ifs with h1 h2 h3 h4 <;> try rfl
  all_goals exfalso
  all_goals have h0 := u64sub_now_self inp.now
  all_goals simp_all

end MotorApiC

namespace MotorApiC

theorem axisStep_enabled_hold (h : Handle) (inp : TickInput) (i : Nat)
    (hs : h.servo_enabled i = true) (hm : h.motion_started = false) :
    axisStep h inp i =
      { servo := true, warmup := h.csp_warmup i, target := readActual inp i,
        seen := (readStatus inp i &&& 0x6F == 0x27),
        lastAct := readActual inp i, timeCnt := (h.time_cnt i + 1) % 2 ^ 32,
        out := { ctrl := [0x0F], tgt := [readActual inp i], mode := [MA_MODE_CSP] } } := by
  simp only [axisStep, hs, hm]
  simp

theorem axisStep_enabled_run (h : Handle) (inp : TickInput) (i : Nat)
    (hs : h.servo_enabled i = true) (hm : h.motion_started = true)
    (hw : ¬ h.csp_warmup i > 0) :
    axisStep h inp i =
      { servo := true, warmup := h.csp_warmup i,
        target := wrap32 (h.csp_target i +
          (if (if (if h.cmd_run then h.cmd_dir * h.cmd_step else 0) > MA_MAX_DELTA_PER_CYCLE
              then MA_MAX_DELTA_PER_CYCLE
              else if h.cmd_run then h.cmd_dir * h.cmd_step else 0) < -MA_MAX_DELTA_PER_CYCLE
           then -MA_MAX_DELTA_PER_CYCLE
           else if (if h.cmd_run then h.cmd_dir * h.cmd_step else 0) > MA_MAX_DELTA_PER_CYCLE
              then MA_MAX_DELTA_PER_CYCLE
              else if h.cmd_run then h.cmd_dir * h.cmd_step else 0)),
        seen := (readStatus inp i &&& 0x6F == 0x27),
        lastAct := readActual inp i, timeCnt := (h.time_cnt i + 1) % 2 ^ 32,
        out := { ctrl := [0x0F],
                 tgt := [wrap32 (h.csp_target i +
                   (if (if (if h.cmd_run then h.cmd_dir * h.cmd_step else 0) > MA_MAX_DELTA_PER_CYCLE
                       then MA_MAX_DELTA_PER_CYCLE
                       else if h.cmd_run then h.cmd_dir * h.cmd_step else 0) < -MA_MAX_DELTA_PER_CYCLE
                    then -MA_MAX_DELTA_PER_CYCLE
                    else if (if h.cmd_run then h.cmd_dir * h.cmd_step else 0) > MA_MAX_DELTA_PER_CYCLE
                       then MA_MAX_DELTA_PER_CYCLE
                       else if h.cmd_run then h.cmd_dir * h.cmd_step else 0))],
                 mode := [MA_MODE_CSP] } } := by
  simp only [axisStep, hs, hm]
  simp [hw]

/-- C5: on every tick where the axis is servo-enabled and motion has not
started, every target-position value written to the process image that
tick equals the actual position read that tick, at least one target write
happens, and the cached CSP target after the tick equals that actual
position. -/
theorem C5_hold_at_actual :
    ∀ (h : Handle) (inp : TickInput) (i : Nat),
      i < h.slave_count →
      h.servo_enabled i = true →
      h.motion_started = false →
      (motor_api_run_once h inp).1.csp_target i = readActual inp i ∧
      ((motor_api_run_once h inp).2 i).tgt ≠ [] ∧
      (∀ t ∈ ((motor_api_run_once h inp).2 i).tgt, t = readActual inp i) := by
  intro h inp i hi hs hm
  have hstep := axisStep_enabled_hold h inp i hs hm
  have hrun : motor_api_run_once h inp =
      barrierStep (axisLoop h inp).1 inp (axisLoop h inp).2 := rfl
  have htgtloop : (axisLoop h inp).1.csp_target i = readActual inp i := by
    simp [axisLoop, hi, hstep]
  have houtloop : (axisLoop h inp).2 i = (axisStep h inp i).out := by
    simp [axisLoop, hi]
  refine ⟨?_, ?_, ?_⟩
  · rw [hrun]
    rcases barrierStep_target_or (axisLoop h inp).1 inp (axisLoop h inp).2 i with hc | hc <;>
      rw [hc]
    exact htgtloop
  · rw [hrun]
    rcases barrierStep_out_or (axisLoop h inp).1 inp (axisLoop h inp).2 i with hc | hc <;>
      rw [hc] <;> rw [houtloop, hstep] <;> simp [fireOut]
  · rw [hrun]
    rcases barrierStep_out_or (axisLoop h inp).1 inp (axisLoop h inp).2 i with hc | hc <;>
      rw [hc] <;> rw [houtloop, hstep] <;> intro t ht <;> simp [fireOut] at ht <;> simp [ht]

/-- Witness for C5: a single enabled axis holding at actual position 42. -/
theorem C5_hold_at_actual_witness :
    (0 < ({ initHandle 1 with servo_enabled := fun _ => true } : Handle).slave_count ∧
     ({ initHandle 1 with servo_enabled := fun _ => true } : Handle).servo_enabled 0 = true ∧
     ({ initHandle 1 with servo_enabled := fun _ => true } : Handle).motion_started = false) ∧
    (motor_api_run_once { initHandle 1 with servo_enabled := fun _ => true }
      { status := fun _ => 0x27, actual := fun _ => 42, now := 0 }).1.csp_target 0 =
      readActual { status := fun _ => 0x27, actual := fun _ => 42, now := 0 } 0 :=
  ⟨⟨by decide, by decide, by decide⟩,
   (C5_hold_at_actual { initHandle 1 with servo_enabled := fun _ => true }
     { status := fun _ => 0x27, actual := fun _ => 42, now := 0 } 0
     (by decide) (by decide) (by decide)).1⟩

end MotorApiC

namespace MotorApiC

theorem axisStep_servo_true (h : Handle) (inp : TickInput) (i : Nat)
    (hs : h.servo_enabled i = true) :
    (axisStep h inp i).servo = true := by
  simp only [axisStep, hs]
  split_ifs <;> simp_all

theorem axisStep_enabled_ctrl (h : Handle) (inp : TickInput) (i : Nat)
    (hs : h.servo_enabled i = true) :
    (axisStep h inp i).out.ctrl = [0x0F] := by
  simp only [axisStep, hs]
  split_ifs <;> simp_all

theorem run_once_servo_mono (h : Handle) (inp : TickInput) (i : Nat)
    (hs : h.servo_enabled i = true) :
    (motor_api_run_once h inp).1.servo_enabled i = true := by
  have hrun : motor_api_run_once h inp =
      barrierStep (axisLoop h inp).1 inp (axisLoop h inp).2 := rfl
  rw [hrun, barrierStep_servo]
  by_cases hi : i < h.slave_count <;> simp [axisLoop, hi, hs, axisStep_servo_true]

/-- C6: servo_enabled is monotonic over the ticks of one controller
handle: a tick never resets it (so it moves from false to true at most
once), once it is true every control-word write of a tick for that axis is
0x000F (the 0x0006/0x0007 shutdown and switch-on prelude is never executed
again), and it stays true along any sequence of ticks. -/
theorem C6_servo_enabled_monotonic :
    (∀ (h : Handle) (inp : TickInput) (i : Nat),
      h.servo_enabled i = true →
      (motor_api_run_once h inp).1.servo_enabled i = true ∧
      (∀ c ∈ ((motor_api_run_once h inp).2 i).ctrl, c = 0x0F)) ∧
    (∀ (h : Handle) (inps : List TickInput) (i : Nat),
      h.servo_enabled i = true →
      (runTicks h inps).servo_enabled i = true) := by
  constructor
  · intro h inp i hs
    refine ⟨run_once_servo_mono h inp i hs, ?_⟩
    have hrun : motor_api_run_once h inp =
        barrierStep (axisLoop h inp).1 inp (axisLoop h inp).2 := rfl
    rw [hrun]
    rcases barrierStep_out_or (axisLoop h inp).1 inp (axisLoop h inp).2 i with hc | hc <;>
      rw [hc] <;> by_cases hi : i < h.slave_count <;>
      simp [axisLoop, hi, fireOut, AxisOut.none, axisStep_enabled_ctrl h inp i hs] <;>
      try (intro c hcm; simp_all)
  · intro h inps
    induction inps generalizing h with
    | nil => intro i hs; exact hs
    | cons inp rest ih =>
      intro i hs
      exact ih (motor_api_run_once h inp).1 i (run_once_servo_mono h inp i hs)

/-- Witness for C6: an enabled single-axis handle stays enabled over a
tick and over a two-tick run. -/
theorem C6_servo_enabled_monotonic_witness :
    enabledHandle.servo_enabled 0 = true ∧
    (motor_api_run_once enabledHandle (enabledInputAt 0)).1.servo_enabled 0 = true ∧
    (runTicks enabledHandle [enabledInputAt 0, enabledInputAt 1]).servo_enabled 0 = true :=
  ⟨by decide,
   (C6_servo_enabled_monotonic.1 enabledHandle (enabledInputAt 0) 0 (by decide)).1,
   C6_servo_enabled_monotonic.2 enabledHandle [enabledInputAt 0, enabledInputAt 1] 0 (by decide)⟩

/-- C10: when the stored command's run flag is false at a tick, the tick
leaves motion_started, barrier_armed and barrier_start_ns untouched: the
elapsed-delay check is only evaluated while run is true, so an elapsed
armed barrier cannot start motion on a stopped tick. -/
theorem C10_stop_blocks_motion_start :
    ∀ (h : Handle) (inp : TickInput),
      h.cmd_run = false →
      (motor_api_run_once h inp).1.motion_started = h.motion_started ∧
      (motor_api_run_once h inp).1.barrier_armed = h.barrier_armed ∧
      (motor_api_run_once h inp).1.barrier_start_ns = h.barrier_start_ns := by
  intro h inp hr
  have hrun : motor_api_run_once h inp =
      barrierStep (axisLoop h inp).1 inp (axisLoop h inp).2 := rfl
  have hid := barrierStep_norun_id (axisLoop h inp).1 inp (axisLoop h inp).2 hr
  rw [hrun, hid]
  exact ⟨rfl, rfl, rfl⟩

/-- Witness for C10: an armed barrier whose delay has long elapsed does not
fire while run is false. -/
theorem C10_stop_blocks_motion_start_witness :
    armedStoppedHandle.cmd_run = false ∧
    (motor_api_run_once armedStoppedHandle
      (enabledInputAt 5000000000)).1.motion_started = armedStoppedHandle.motion_started :=
  ⟨by decide,
   (C10_stop_blocks_motion_start armedStoppedHandle
     (enabledInputAt 5000000000) (by decide)).1⟩

end MotorApiC

namespace MotorApiC

/-- C3 counterexample: with the command stored through the command
interface as (run=true, dir=+1, step=1000000), a post-warmup tick after
motion start increments the CSP target by 100000, not by 400000 as the
claim states: the interface clamp to [1, 100000] caps the stored step
before the per-cycle +-400000 clamp is ever reached. -/
theorem C3_counterexample_step_clamp :
    (motor_api_run_once c3handle c3input).1.csp_target 0 =
      c3handle.csp_target 0 + 100000 ∧
    ¬ (motor_api_run_once c3handle c3input).1.csp_target 0 =
      c3handle.csp_target 0 + 400000 := by
  constructor <;> decide

/-- C3 (amended): the command interface stores (run=true, dir=1,
step=100000) for a requested step of 1000000, and with that stored command
every post-warmup tick after motion start advances the CSP target by
exactly 100000 counts (the per-cycle +-400000 clamp is not reached). -/
theorem C3_delta_per_tick :
    (∀ h : Handle,
      (set_cmd_locked h true 1 1000000).cmd_run = true ∧
      (set_cmd_locked h true 1 1000000).cmd_dir = 1 ∧
      (set_cmd_locked h true 1 1000000).cmd_step = 100000) ∧
    (∀ (h : Handle) (inp : TickInput) (i : Nat),
      i < h.slave_count →
      h.servo_enabled i = true →
      h.motion_started = true →
      ¬ h.csp_warmup i > 0 →
      h.cmd_run = true →
      h.cmd_dir = 1 →
      h.cmd_step = 100000 →
      (motor_api_run_once h inp).1.csp_target i = wrap32 (h.csp_target i + 100000)) := by
  constructor
  · intro h
    refine ⟨rfl, by norm_num [set_cmd_locked], by norm_num [set_cmd_locked]⟩
  · intro h inp i hi hs hm hw hr hd hstp
    have hstep := axisStep_enabled_run h inp i hs hm hw
    have hrun : motor_api_run_once h inp =
        barrierStep (axisLoop h inp).1 inp (axisLoop h inp).2 := rfl
    have hmot : (axisLoop h inp).1.motion_started = true := hm
    have hid := barrierStep_motion_id (axisLoop h inp).1 inp (axisLoop h inp).2 hmot
    rw [hrun, hid]
    simp only [axisLoop, hi, if_pos hi, hstep]
    simp [hr, hd, hstp, MA_MAX_DELTA_PER_CYCLE]

/-- Witness for C3's amended theorem: from target 0 the next tick's target
is 100000. -/
theorem C3_delta_per_tick_witness :
    (0 < c3handle.slave_count ∧ c3handle.servo_enabled 0 = true ∧
     c3handle.motion_started = true ∧ ¬ c3handle.csp_warmup 0 > 0 ∧
     c3handle.cmd_run = true ∧ c3handle.cmd_dir = 1 ∧ c3handle.cmd_step = 100000) ∧
    (motor_api_run_once c3handle c3input).1.csp_target 0 =
      wrap32 (c3handle.csp_target 0 + 100000) :=
  ⟨⟨by decide, by decide, by decide, by decide, by decide, by decide, by decide⟩,
   C3_delta_per_tick.2 c3handle c3input 0 (by decide) (by decide) (by decide)
     (by decide) (by decide) (by decide) (by decide)⟩

/-- C4 counterexample: with status word 0x0008 (CiA-402 fault bit set,
ready-to-switch-on clear) on a not-yet-enabled axis, the tick writes no
0x0080 fault-reset pulse at all — the code keys the pulse on bit 0x0040,
not on the fault bit 0x0008 — and the only control write is 0x0006. -/
theorem C4_counterexample_fault_bit :
    0x0080 ∉ ((motor_api_run_once (initHandle 1) c4faultInput).2 0).ctrl ∧
    ((motor_api_run_once (initHandle 1) c4faultInput).2 0).ctrl = [0x0006] := by
  constructor <;> decide

/-- C4 (amended): for a not-yet-enabled axis the control-word write
sequence of a tick is exactly the 0x0000/0x0080 pulse — issued when and
only when status bit 0x0040 (switch-on disabled) is set and bit 0x0001
(ready to switch on) is clear — followed by the state-machine control
word; in particular at status 0x0040 the tick writes 0x0000, 0x0080 and
then reverts to 0x0006. -/
theorem C4_fault_reset_pulse :
    ∀ (h : Handle) (inp : TickInput) (i : Nat),
      i < h.slave_count →
      h.servo_enabled i = false →
      (h.barrier_armed = true → ∀ j, j < h.slave_count → h.servo_enabled j = true) →
      0 < h.barrier_delay_ns →
      ((motor_api_run_once h inp).2 i).ctrl =
        (if readStatus inp i &&& 0x0040 != 0 && readStatus inp i &&& 0x0001 == 0
         then [0x0000, 0x0080] else []) ++
        [if readStatus inp i &&& 0x6F = 0x21 then 0x07
         else if readStatus inp i &&& 0x6F = 0x23 ∨ readStatus inp i &&& 0x6F = 0x27
         then 0x0F else 0x06] ∧
      (readStatus inp i = 0x40 →
        ((motor_api_run_once h inp).2 i).ctrl = [0x0000, 0x0080, 0x0006]) := by
  intro h inp i hi hs hinv hd
  have harm : h.barrier_armed = false := by
    cases hb : h.barrier_armed
    · rfl
    · have := hinv hb i hi
      rw [hs] at this
      exact absurd this (by simp)
  have houts : (barrierStep (axisLoop h inp).1 inp (axisLoop h inp).2).2 =
      (axisLoop h inp).2 :=
    barrierStep_outs_id (axisLoop h inp).1 inp (axisLoop h inp).2 hd harm
  have hrun : motor_api_run_once h inp =
      barrierStep (axisLoop h inp).1 inp (axisLoop h inp).2 := rfl
  have hctrl : ((motor_api_run_once h inp).2 i).ctrl = (axisStep h inp i).out.ctrl := by
    rw [hrun, houts]
    simp [axisLoop, hi]
  rw [hctrl, axisStep_disabled h inp i hs]
  refine ⟨rfl, ?_⟩
  intro h40
  simp [h40]
  decide

/-- Witness for C4's amended theorem: at status 0x0040 the control writes
of the tick are 0x0000, 0x0080, 0x0006. -/
theorem C4_fault_reset_pulse_witness :
    (0 < (initHandle 1).slave_count ∧ (initHandle 1).servo_enabled 0 = false ∧
     0 < (initHandle 1).barrier_delay_ns ∧ readStatus c4disabledInput 0 = 0x40) ∧
    ((motor_api_run_once (initHandle 1) c4disabledInput).2 0).ctrl =
      [0x0000, 0x0080, 0x0006] :=
  ⟨⟨by decide, by decide, by decide, by decide⟩,
   (C4_fault_reset_pulse (initHandle 1) c4disabledInput 0 (by decide) (by decide)
     (fun hb => absurd hb (by decide)) (by decide)).2 (by decide)⟩

end MotorApiC

namespace MotorApiC

theorem barrierStep_arm (h : Handle) (inp : TickInput) (outs : Nat → AxisOut)
    (hm : h.motion_started = false) (hr : h.cmd_run = true)
    (ha : h.barrier_armed = false)
    (hall : (List.range h.slave_count).all (fun j => h.seen_enabled j) = true)
    (hd : 0 < h.barrier_delay_ns) :
    barrierStep h inp outs =
      ({ h with barrier_armed := true, barrier_start_ns := inp.now % 2 ^ 64 }, outs) := by
  have h0 := u64sub_now_self inp.now
  simp only [barrierStep, hm, hr, ha, hall]
  split_ifs <;> simp_all

theorem barrierStep_fire (h : Handle) (inp : TickInput) (outs : Nat → AxisOut)
    (hm : h.motion_started = false) (hr : h.cmd_run = true)
    (ha : h.barrier_armed = true)
    (hel : h.barrier_delay_ns ≤ u64sub inp.now h.barrier_start_ns) :
    barrierStep h inp outs =
      ({ h with
         csp_target := fun i => if i < h.slave_count then readActual inp i else h.csp_target i,
         motion_started := true, barrier_armed := false },
       fun i => if i < h.slave_count then fireOut inp (outs i) i else outs i) := by
  simp only [barrierStep, hm, hr, ha, hel]
  split_ifs <;> simp_all

theorem barrierStep_wait (h : Handle) (inp : TickInput) (outs : Nat → AxisOut)
    (hm : h.motion_started = false) (ha : h.barrier_armed = true)
    (hnel : u64sub inp.now h.barrier_start_ns < h.barrier_delay_ns) :
    barrierStep h inp outs = (h, outs) := by
  simp only [barrierStep, hm, ha]
  split_ifs <;> simp_all <;> omega

/-- C2: with run=true and motion not yet started, a tick on which every
axis reports masked status 0x27 arms the barrier, recording the tick's
monotonic time; while armed, a tick whose elapsed time since arming is
below the delay (default 1000000000 ns) does not start motion or disturb
the armed state; the first tick with run=true whose elapsed time reaches
the delay seeds every axis's CSP target to that tick's actual position,
writes control word 0x000F and mode 8 to every axis, sets motion_started
and disarms; and once motion_started is true no later tick ever clears it
or re-arms the barrier. -/
theorem C2_motion_start_barrier :
    (∀ n, (initHandle n).barrier_delay_ns = 1000000000) ∧
    (∀ (h : Handle) (inp : TickInput),
      h.motion_started = false → h.cmd_run = true → h.barrier_armed = false →
      (∀ j, j < h.slave_count → readStatus inp j &&& 0x6F = 0x27) →
      0 < h.barrier_delay_ns →
      (motor_api_run_once h inp).1.barrier_armed = true ∧
      (motor_api_run_once h inp).1.barrier_start_ns = inp.now % 2 ^ 64 ∧
      (motor_api_run_once h inp).1.motion_started = false) ∧
    (∀ (h : Handle) (inp : TickInput),
      h.motion_started = false → h.barrier_armed = true →
      u64sub inp.now h.barrier_start_ns < h.barrier_delay_ns →
      (motor_api_run_once h inp).1.motion_started = false ∧
      (motor_api_run_once h inp).1.barrier_armed = true ∧
      (motor_api_run_once h inp).1.barrier_start_ns = h.barrier_start_ns) ∧
    (∀ (h : Handle) (inp : TickInput),
      h.motion_started = false → h.cmd_run = true → h.barrier_armed = true →
      h.barrier_delay_ns ≤ u64sub inp.now h.barrier_start_ns →
      (motor_api_run_once h inp).1.motion_started = true ∧
      (motor_api_run_once h inp).1.barrier_armed = false ∧
      (∀ i, i < h.slave_count →
        (motor_api_run_once h inp).1.csp_target i = readActual inp i ∧
        ((motor_api_run_once h inp).2 i).lastCtrl = 0x0F ∧
        ((motor_api_run_once h inp).2 i).mode.getLastD 0 = MA_MODE_CSP)) ∧
    (∀ (h : Handle) (inp : TickInput),
      h.motion_started = true →
      (motor_api_run_once h inp).1.motion_started = true ∧
      (motor_api_run_once h inp).1.barrier_armed = h.barrier_armed) ∧
    (∀ (h : Handle) (inps : List TickInput),
      h.motion_started = true → (runTicks h inps).motion_started = true) := by
  have hrwrap : ∀ (h : Handle) (inp : TickInput), motor_api_run_once h inp =
      barrierStep (axisLoop h inp).1 inp (axisLoop h inp).2 := fun _ _ => rfl
  refine ⟨fun n => rfl, ?_, ?_, ?_, ?_, ?_⟩
  · -- arming
    intro h inp hm hr ha hall hd
    have hallb : (List.range (axisLoop h inp).1.slave_count).all
        (fun j => (axisLoop h inp).1.seen_enabled j) = true := by
      refine List.all_eq_true.mpr fun j hj => ?_
      have hj' := List.mem_range.mp hj
      simp only [axisLoop, axisStep_seen]
      rw [if_pos (show j < h.slave_count from hj')]
      simp [hall j hj']
    have := barrierStep_arm (axisLoop h inp).1 inp (axisLoop h inp).2 hm hr ha hallb hd
    rw [hrwrap, this]
    exact ⟨rfl, rfl, hm⟩
  · -- waiting: no early start
    intro h inp hm ha hnel
    have := barrierStep_wait (axisLoop h inp).1 inp (axisLoop h inp).2 hm ha hnel
    rw [hrwrap, this]
    exact ⟨hm, ha, rfl⟩
  · -- firing
    intro h inp hm hr ha hel
    have hfire := barrierStep_fire (axisLoop h inp).1 inp (axisLoop h inp).2 hm hr ha hel
    rw [hrwrap, hfire]
    refine ⟨rfl, rfl, fun i hi => ⟨?_, ?_, ?_⟩⟩
    · show (if i < h.slave_count then readActual inp i
            else (axisLoop h inp).1.csp_target i) = readActual inp i
      rw [if_pos hi]
    · show (if i < h.slave_count then fireOut inp ((axisLoop h inp).2 i) i
            else (axisLoop h inp).2 i).lastCtrl = 0x0F
      rw [if_pos hi]
      exact lastCtrl_fireOut inp _ i
    · show (if i < h.slave_count then fireOut inp ((axisLoop h inp).2 i) i
            else (axisLoop h inp).2 i).mode.getLastD 0 = MA_MODE_CSP
      rw [if_pos hi]
      simp [fireOut, List.getLastD_concat]
  · -- per-tick monotonicity of motion_started
    intro h inp hm
    have := barrierStep_motion_id (axisLoop h inp).1 inp (axisLoop h inp).2 hm
    rw [hrwrap, this]
    exact ⟨hm, rfl⟩
  · -- motion_started stays true along any tick sequence
    intro h inps
    induction inps generalizing h with
    | nil => intro hm; exact hm
    | cons inp rest ih =>
      intro hm
      have hstep : (motor_api_run_once h inp).1.motion_started = true := by
        have := barrierStep_motion_id (axisLoop h inp).1 inp (axisLoop h inp).2 hm
        rw [hrwrap, this]
        exact hm
      exact ih (motor_api_run_once h inp).1 hstep

/-- Witness for C2: a ready single-axis handle arms at time 0, holds at
time 500000000, and fires at time 2000000000 once armed. -/
theorem C2_motion_start_barrier_witness :
    (readyToArmHandle.motion_started = false ∧ readyToArmHandle.cmd_run = true ∧
     readyToArmHandle.barrier_armed = false ∧ 0 < readyToArmHandle.barrier_delay_ns) ∧
    (motor_api_run_once readyToArmHandle (enabledInputAt 0)).1.barrier_armed = true ∧
    (armedRunningHandle.motion_started = false ∧ armedRunningHandle.barrier_armed = true ∧
     armedRunningHandle.barrier_delay_ns ≤
       u64sub (enabledInputAt 2000000000).now armedRunningHandle.barrier_start_ns) ∧
    (motor_api_run_once armedRunningHandle (enabledInputAt 2000000000)).1.motion_started = true :=
  ⟨⟨by decide, by decide, by decide, by decide⟩,
   (C2_motion_start_barrier.2.1 readyToArmHandle (enabledInputAt 0) (by decide) (by decide)
     (by decide) (fun j hj => by
       have h1 : j < 1 := hj
       interval_cases j
       decide) (by decide)).1,
   ⟨by decide, by decide, by decide⟩,
   (C2_motion_start_barrier.2.2.2.1 armedRunningHandle (enabledInputAt 2000000000) (by decide)
     (by decide) (by decide) (by decide)).1⟩

end MotorApiC

namespace MotorApiC

theorem barrierStep_slave_count (h : Handle) (inp : TickInput) (outs : Nat → AxisOut) :
    (barrierStep h inp outs).1.slave_count = h.slave_count := by
  simp only [barrierStep]
  split_ifs <;> rfl

theorem barrierStep_armed_true (h : Handle) (inp : TickInput) (outs : Nat → AxisOut) :
    (barrierStep h inp outs).1.barrier_armed = true →
    h.barrier_armed = true ∨
      (List.range h.slave_count).all (fun j => h.seen_enabled j) = true := by
  simp only [barrierStep]
  split_ifs <;> intro hx <;> simp_all

theorem axisStep_seen_imp_servo (h : Handle) (inp : TickInput) (j : Nat) :
    (axisStep h inp j).seen = true → (axisStep h inp j).servo = true := by
  cases hs : h.servo_enabled j
  · rw [axisStep_disabled h inp j hs]
    exact id
  · exact fun _ => axisStep_servo_true h inp j hs

/-- Reachability invariant justifying the barrier hypothesis of the C1 and
C4 theorems: whenever the barrier is armed, every axis is servo-enabled.
It holds on a fresh handle and every tick preserves it, because arming
requires every axis to report masked status 0x27, which enables the axis
in the same tick, and servo_enabled is never cleared. -/
theorem run_once_preserves_armed_inv (h : Handle) (inp : TickInput)
    (hinv : h.barrier_armed = true → ∀ j, j < h.slave_count → h.servo_enabled j = true) :
    (motor_api_run_once h inp).1.barrier_armed = true →
    ∀ j, j < (motor_api_run_once h inp).1.slave_count →
      (motor_api_run_once h inp).1.servo_enabled j = true := by
  have hrwrap : motor_api_run_once h inp =
      barrierStep (axisLoop h inp).1 inp (axisLoop h inp).2 := rfl
  rw [hrwrap, barrierStep_servo, barrierStep_slave_count]
  intro harm' j hj
  have hjn : j < h.slave_count := hj
  have hmono : h.servo_enabled j = true → (axisLoop h inp).1.servo_enabled j = true := by
    intro hpre
    simp [axisLoop, hjn, axisStep_servo_true h inp j hpre]
  rcases barrierStep_armed_true (axisLoop h inp).1 inp (axisLoop h inp).2 harm' with hc | hc
  · exact hmono (hinv hc j hjn)
  · have hseenj := List.all_eq_true.mp hc j (List.mem_range.mpr hj)
    have hseenj' : (axisStep h inp j).seen = true := by
      have : (axisLoop h inp).1.seen_enabled j = (axisStep h inp j).seen := by
        simp [axisLoop, hjn]
      rw [this] at hseenj
      exact hseenj
    have := axisStep_seen_imp_servo h inp j hseenj'
    simp [axisLoop, hjn, this]

/-- A fresh handle satisfies the armed invariant. -/
theorem initHandle_armed_inv (n : Nat) :
    (initHandle n).barrier_armed = true →
    ∀ j, j < (initHandle n).slave_count → (initHandle n).servo_enabled j = true := by
  intro hb
  exact absurd hb (by simp [initHandle])

end MotorApiC

namespace EniModel

/-- C8: the ENI parser's failure modes — an unopenable path makes
motor_api_read_eni return MA_ERR_IO; any openable content parses with
status MA_OK (a malformed integer field never fails the parse: the
affected field just falls back to its default, as for a vendor-id text
whose integer parse yields 0, e.g. the malformed "0xZZ"); and a parse
producing zero slaves is surfaced by motor_api_create as MA_ERR_CONFIG. -/
theorem C8_eni_failure_modes :
    (motor_api_read_eni none).1 = MaStatus.err_io ∧
    (∀ raws, (motor_api_read_eni (some raws)).1 = MaStatus.ok) ∧
    (∀ raws, (motor_api_read_eni (some raws)).2.1 = min raws.length MA_MAX_SLAVES) ∧
    (∀ raws, (motor_api_read_eni (some raws)).2.1 = 0 →
      motor_api_create_eni_check (some raws) = MaStatus.err_config) ∧
    (∀ (idx : Nat) (r : RawSlave) (s : List Char),
      r.vendorAttr = some s → parse_hex_or_dec s ≤ 0 →
      (parseSlave idx r).vendor_id = 0x000116c7) ∧
    parse_hex_or_dec "0xZZ".toList = 0 := by
  refine ⟨rfl, fun raws => rfl, ?_, ?_, ?_, by decide⟩
  · intro raws
    simp [motor_api_read_eni, List.length_take, Nat.min_comm]
  · intro raws hz
    simp [motor_api_create_eni_check, hz]
  · intro idx r s hattr hle
    simp only [parseSlave, parse_attr, hattr]
    have hv : (if 0 ≤ parse_hex_or_dec s then (parse_hex_or_dec s).toNat % 2 ^ 32 else 0) = 0 := by
      split_ifs with h0
      · have h00 : parse_hex_or_dec s = 0 := le_antisymm hle h0
        simp [h00]
      · rfl
    rw [hv]
    simp

/-- Witness for C8: a single slave element whose vendor-id text is the
malformed "0xZZ" parses with status MA_OK and yields the default
vendor id. -/
theorem C8_eni_failure_modes_witness :
    (c8rawSlave.vendorAttr = some "0xZZ".toList ∧
      parse_hex_or_dec "0xZZ".toList ≤ 0) ∧
    (motor_api_read_eni (some [c8rawSlave])).1 = MaStatus.ok ∧
    (parseSlave 0 c8rawSlave).vendor_id = 0x000116c7 :=
  ⟨⟨rfl, by decide⟩,
   C8_eni_failure_modes.2.1 [c8rawSlave],
   C8_eni_failure_modes.2.2.2.2.1 0 c8rawSlave "0xZZ".toList rfl (by decide)⟩

end EniModel

namespace CppAdapter

theorem lor_byte_shift (n : Nat) (a b : Nat) (h : a < 2 ^ n) :
    a ||| (b <<< n) = a + 2 ^ n * b := by
  induction n generalizing a with
  | zero =>
    interval_cases a
    simp [Nat.shiftLeft_eq]
  | succ n ih =>
    have ha2 : a / 2 < 2 ^ n := by
      rw [pow_succ] at h
      omega
    have hbit : a = Nat.bit (decide (a % 2 = 1)) (a / 2) := by
      rw [Nat.bit_val]
      rcases Nat.mod_two_eq_zero_or_one a with hm | hm <;> simp [hm] <;> omega
    have hshift : b <<< (n + 1) = Nat.bit false (b <<< n) := by
      rw [Nat.bit_val, Nat.shiftLeft_succ_inside]
      simp [Nat.shiftLeft_eq]
      ring
    rw [hbit, hshift, Nat.lor_bit, ih _ ha2, Nat.bit_val, Nat.bit_val]
    rcases Nat.mod_two_eq_zero_or_one a with hm | hm <;> simp [hm] <;> ring_nf

/-- C7 counterexample: the control-word write of MotorApi::write_control is
a host-typed 16-bit store, so already at control word 0x0006 the byte
sequence it deposits differs between a little-endian and a big-endian
host, contradicting the claim that the control-word write goes through
byte-level little-endian helpers with host-independent byte sequences. -/
theorem C7_counterexample_host_typed_store :
    write_control_bytes Endian.little 0x0006 ≠ write_control_bytes Endian.big 0x0006 ∧
    update_target_pos_bytes Endian.little 1 ≠ update_target_pos_bytes Endian.big 1 ∧
    get_status_value Endian.little 0x06 0x00 ≠ get_status_value Endian.big 0x06 0x00 := by
  refine ⟨by decide, by decide, by decide⟩

/-- C7 (amended): the adapter-level byte helpers
(StandardMotorAdapter::readInt16/readInt32/writeInt16/writeInt32 and
read_le_int32 used by get_actual_pos) are little-endian byte-level and
host-independent — the write emits the LSB-first sequence for every value
and the read recovers every in-range value from it — but the control-word
write, target-position write and status read of the MotorApi control
surface use host-typed loads/stores, which agree with the little-endian
wire format only on a little-endian host. -/
theorem C7_endian_helpers :
    (∀ v : Int, -(2 ^ 15) ≤ v → v < 2 ^ 15 → readInt16 (writeInt16 v) = v) ∧
    (∀ v : Int, -(2 ^ 31) ≤ v → v < 2 ^ 31 → readInt32 (writeInt32 v) = v) ∧
    (∀ bs, read_le_int32 bs = readInt32 bs) ∧
    (∀ v : Int, 0 ≤ v → writeInt16 v = hostStore16 Endian.little v.toNat) ∧
    (∀ v : Int, writeInt32 v = hostStore32 Endian.little v) ∧
    (∃ v : Nat, hostStore16 Endian.big v ≠ hostStore16 Endian.little v) ∧
    (∃ b0 b1 : Nat, get_status_value Endian.big b0 b1 ≠ get_status_value Endian.little b0 b1) := by
  refine ⟨?_, ?_, fun bs => rfl, ?_, fun v => rfl, ⟨6, by decide⟩, ⟨6, 0, by decide⟩⟩
  · intro v hlo hhi
    have hu : (v % 2 ^ 16).toNat < 2 ^ 16 := by omega
    have hb0 : (v % 2 ^ 16).toNat % 2 ^ 8 < 2 ^ 8 := by omega
    simp only [writeInt16, readInt16, List.getD_cons_zero, List.getD_cons_succ]
    rw [lor_byte_shift 8 _ _ hb0]
    simp only [toInt16]
    omega
  · intro v hlo hhi
    have hu : (v % 2 ^ 32).toNat < 2 ^ 32 := by omega
    have hb0 : (v % 2 ^ 32).toNat % 2 ^ 8 < 2 ^ 8 := by omega
    simp only [writeInt32, readInt32, List.getD_cons_zero, List.getD_cons_succ]
    rw [lor_byte_shift 8 _ _ hb0]
    rw [lor_byte_shift 16 _ _ (by omega)]
    rw [lor_byte_shift 24 _ _ (by omega)]
    simp only [toInt32]
    omega
  · intro v hv
    have hconv : (v % 2 ^ 16).toNat = v.toNat % 2 ^ 16 := by omega
    simp only [writeInt16, hostStore16, hconv]

/-- Witness for C7's amended theorem: the 16-bit helper round-trips -2 and
the 32-bit helper round-trips -100000. -/
theorem C7_endian_helpers_witness :
    (-(2 ^ 15) ≤ (-2 : Int) ∧ (-2 : Int) < 2 ^ 15 ∧
     -(2 ^ 31) ≤ (-100000 : Int) ∧ (-100000 : Int) < 2 ^ 31) ∧
    readInt16 (writeInt16 (-2)) = -2 ∧
    readInt32 (writeInt32 (-100000)) = -100000 :=
  ⟨⟨by norm_num, by norm_num, by norm_num, by norm_num⟩,
   C7_endian_helpers.1 (-2) (by norm_num) (by norm_num),
   C7_endian_helpers.2.1 (-100000) (by norm_num) (by norm_num)⟩

end CppAdapter

namespace EyouAdapter

/-- C9 counterexample: starting from a zero attempt counter on a damped
persistent fault (status 0x0308, fault bit set, fault code 0x03), the 10th
consecutive call returns 0x0006 with run_enable true — not 0x0080 as the
claim's "first 10 calls" requires: the counter is incremented before the
< 10 test, so only 9 calls yield the reset word. -/
theorem C9_counterexample_repeat_reset :
    (eyouCalls c9state 0x0308 true 10).1.getD 9 (0, false) = (0x0006, true) ∧
    ¬ (eyouCalls c9state 0x0308 true 10).1.getD 9 (0, false) = (0x0080, false) := by
  constructor <;> decide

/-- C9 (amended): on a persistent fault whose code is not 0x08/0x09, past
the state-change damping, each call with attempt counter below 9 returns
0x0080 with run_enable false and increments the counter; a call with
counter at least 9 returns 0x0006, sets run_enable true and resets the
counter to 0.  Hence from a zero counter the first 9 calls return 0x0080
and the 10th returns 0x0006. -/
theorem C9_repeat_reset_policy :
    (∀ (st : EyouState) (status : Nat) (re : Bool),
      st.last_status = status →
      4 ≤ st.state_change_delay →
      status &&& 0x0008 ≠ 0 →
      ¬ ((status >>> 8) &&& 0xFF = 0x08 ∨ (status >>> 8) &&& 0xFF = 0x09) →
      (st.fault_reset_count < 9 →
        eyouMakeControl st status re =
          (0x0080, false,
           { st with fault_reset_count := st.fault_reset_count + 1,
                     state_change_delay := st.state_change_delay + 1 })) ∧
      (9 ≤ st.fault_reset_count →
        eyouMakeControl st status re =
          (0x0006, true,
           { st with fault_reset_count := 0,
                     state_change_delay := st.state_change_delay + 1 }))) ∧
    (eyouCalls c9state 0x0308 true 10).1 =
      List.replicate 9 (0x0080, false) ++ [(0x0006, true)] := by
  refine ⟨?_, by decide⟩
  intro st status re hlast hdelay hfault hcode
  constructor
  · intro hlt
    simp only [eyouMakeControl, hlast]
    split_ifs <;> first | rfl | omega | (simp_all; omega)
  · intro hge
    simp only [eyouMakeControl, hlast]
    split_ifs <;> first | rfl | omega | (simp_all; omega)

/-- Witness for C9's amended theorem: from the scenario state the first
call returns 0x0080 and increments the counter. -/
theorem C9_repeat_reset_policy_witness :
    (c9state.last_status = 0x0308 ∧ 4 ≤ c9state.state_change_delay ∧
     0x0308 &&& 0x0008 ≠ 0 ∧
     ¬ ((0x0308 >>> 8) &&& 0xFF = 0x08 ∨ (0x0308 >>> 8) &&& 0xFF = 0x09) ∧
     c9state.fault_reset_count < 9) ∧
    eyouMakeControl c9state 0x0308 true =
      (0x0080, false,
       { c9state with fault_reset_count := c9state.fault_reset_count + 1,
                      state_change_delay := c9state.state_change_delay + 1 }) :=
  ⟨⟨rfl, by decide, by decide, by decide, by decide⟩,
   (C9_repeat_reset_policy.1 c9state 0x0308 true rfl (by decide) (by decide)
     (by decide)).1 (by decide)⟩

end EyouAdapter
